import Mathlib

/-!
Verification development for the `chronotag` logging utility
(`src/chronotag/__init__.py`).

The module is embedded shallowly:

* `PrefixedLogger` becomes a record holding the underlying logger name,
  the current message prefix (`_prefix` in the source, `pfx` here because
  the original field name is not usable in this development) and the
  beacon start-time dictionary (`_start_times`), modelled as an
  association list from keys to monotonic instants.
* The monotonic clock `time.perf_counter()` is modelled by passing the
  current instant (a rational number of seconds) explicitly to the
  operations that read the clock.
* Emission to the underlying `logging.Logger` is modelled as the list of
  records produced by a call: each record carries the severity-level
  method that was invoked on the underlying logger, the formatted
  message text, and the extra positional/keyword arguments passed
  through verbatim.
* Python float formatting `f"{x:.2f}"` is modelled on rationals by
  `format2f` (round to the nearest hundredth, render with exactly two
  digits after the decimal point).
* The one-time global configuration (`setup_logging`) becomes a pure
  function on an explicit process-wide state (`GlobalState`), with the
  environment facts the code branches on (cloud library availability,
  handler construction success) gathered in `LogEnv`.
-/

namespace Chronotag

/-- A single apostrophe character, used in the `log_end` warning text
`log_end called for key '<key>' without a corresponding log_start.`. -/
def sq : String := String.singleton (Char.ofNat 39)

/-- The severity-level methods of the underlying logger that the wrapper
delegates to: `debug`, `info`, `warning`, `error`, `critical`,
`exception`. -/
inductive Level where
  | debug
  | info
  | warning
  | error
  | critical
  | exception
deriving DecidableEq

/-- Extra positional (`*args`) and keyword (`**kwargs`) arguments passed
through to the underlying logger unchanged. -/
structure Args where
  pos : List String
  kw : List (String × String)
deriving DecidableEq

/-- No extra arguments (a call like `self.warning(f"...")`). -/
def Args.empty : Args := ⟨[], []⟩

/-- One record emitted to the underlying logger: which severity-level
method was called, the message text handed to it, and the pass-through
arguments. -/
structure Record where
  level : Level
  msg : String
  args : Args
deriving DecidableEq

/-- Lookup in the beacon start-time dictionary (`self._start_times[key]`
read side of `dict.pop(key, None)`). -/
def dictLookup (k : String) : List (String × ℚ) → Option ℚ
  | [] => none
  | (k', v) :: rest => if k' = k then some v else dictLookup k rest

/-- Removal of a key from the beacon start-time dictionary (the removal
side of `dict.pop`). -/
def dictErase (k : String) : List (String × ℚ) → List (String × ℚ)
  | [] => []
  | (k', v) :: rest => if k' = k then dictErase k rest else (k', v) :: dictErase k rest

/-- `self._start_times[key] = value`: overwrite any entry for `key`. -/
def dictInsert (k : String) (v : ℚ) (d : List (String × ℚ)) : List (String × ℚ) :=
  (k, v) :: dictErase k d

/-- `self._start_times.pop(key, None)`: return the stored value (or
`none`) together with the dictionary after removal. -/
def dictPop (k : String) (d : List (String × ℚ)) : Option ℚ × List (String × ℚ) :=
  match dictLookup k d with
  | none => (none, d)
  | some v => (some v, dictErase k d)

/-- The number of hundredths in `q`, rounded to the nearest integer
with halves up: the floor of `q * 100 + 1/2`, computed directly on the
numerator and denominator. -/
def roundCents (q : ℚ) : ℤ :=
  Int.fdiv (200 * q.num + (q.den : ℤ)) (2 * (q.den : ℤ))

/-- Python `f"{x:.2f}"` on the elapsed-seconds value, modelled on ℚ:
round to the nearest hundredth and print with exactly two digits after
the decimal point. -/
def format2f (q : ℚ) : String :=
  let cents : ℤ := roundCents q
  let n : ℕ := cents.natAbs
  (if cents < 0 then "-" else "") ++ toString (n / 100) ++ "." ++
    (if n % 100 < 10 then "0" else "") ++ toString (n % 100)

/-- The `PrefixedLogger` wrapper: underlying logger name
(`self.logger = logging.getLogger(logger_name)`), current prefix
(`self._prefix`), and beacon start-time dictionary
(`self._start_times`). -/
structure PrefixedLogger where
  logger : String
  pfx : String
  startTimes : List (String × ℚ)
deriving DecidableEq

/-- Python `x or "no-prefix"`: `None` and the empty string are falsy. -/
def orDefaultPfx : Option String → String
  | none => "no-prefix"
  | some s => if s = "" then "no-prefix" else s

/-- `PrefixedLogger.__init__(logger_name, prefix=None)`. -/
def PrefixedLogger.init (logger_name : String) (p : Option String) : PrefixedLogger :=
  { logger := logger_name, pfx := orDefaultPfx p, startTimes := [] }

namespace PrefixedLogger

/-- `_format_message`: add the prefix to the message,
`f"[{self._prefix}] {message}"`. -/
def _format_message (st : PrefixedLogger) (message : String) : String :=
  "[" ++ st.pfx ++ "] " ++ message

/-- `update_prefix`: `self._prefix = prefix or "no-prefix"`. -/
def update_prefix (st : PrefixedLogger) (p : Option String) : PrefixedLogger :=
  { st with pfx := orDefaultPfx p }

/-- `info`: `self.logger.info(self._format_message(message), *args, **kwargs)`. -/
def info (st : PrefixedLogger) (message : String) (a : Args) : List Record :=
  [{ level := Level.info, msg := st._format_message message, args := a }]

/-- `debug`: delegate to `self.logger.debug` with the prefixed message. -/
def debug (st : PrefixedLogger) (message : String) (a : Args) : List Record :=
  [{ level := Level.debug, msg := st._format_message message, args := a }]

/-- `warning`: delegate to `self.logger.warning` with the prefixed message. -/
def warning (st : PrefixedLogger) (message : String) (a : Args) : List Record :=
  [{ level := Level.warning, msg := st._format_message message, args := a }]

/-- `error`: delegate to `self.logger.error` with the prefixed message. -/
def error (st : PrefixedLogger) (message : String) (a : Args) : List Record :=
  [{ level := Level.error, msg := st._format_message message, args := a }]

/-- `critical`: delegate to `self.logger.critical` with the prefixed message. -/
def critical (st : PrefixedLogger) (message : String) (a : Args) : List Record :=
  [{ level := Level.critical, msg := st._format_message message, args := a }]

/-- `exception`: delegate to `self.logger.exception` with the prefixed message. -/
def exception (st : PrefixedLogger) (message : String) (a : Args) : List Record :=
  [{ level := Level.exception, msg := st._format_message message, args := a }]

/-- Dispatcher over the six severity-level methods of the wrapper, used
to state one theorem about all of them. -/
def levelMethod : Level → PrefixedLogger → String → Args → List Record
  | Level.debug => debug
  | Level.info => info
  | Level.warning => warning
  | Level.error => error
  | Level.critical => critical
  | Level.exception => exception

/-- `log_beacon`: emit `(BEACON - [<key>] - BLIP) <message>` through
`self.info`. -/
def log_beacon (st : PrefixedLogger) (key message : String) (a : Args) : List Record :=
  info st ("(BEACON - [" ++ key ++ "] - BLIP) " ++ message) a

/-- `log_start`: store the current monotonic instant under `key`, then
emit `(BEACON - [<key>] - START) <message>` through `self.info`.
Returns the updated wrapper state and the emitted records. -/
def log_start (st : PrefixedLogger) (now : ℚ) (key message : String) (a : Args) :
    PrefixedLogger × List Record :=
  let st' : PrefixedLogger := { st with startTimes := dictInsert key now st.startTimes }
  (st', info st' ("(BEACON - [" ++ key ++ "] - START) " ++ message) a)

/-- `log_end`: `pop` the start time for `key`; if missing, warn through
`self.warning` and emit the END beacon with `N/A`; otherwise emit the
END beacon with the elapsed time formatted to two decimal places.
Returns the updated wrapper state and the emitted records in order. -/
def log_end (st : PrefixedLogger) (now : ℚ) (key message : String) (a : Args) :
    PrefixedLogger × List Record :=
  match dictPop key st.startTimes with
  | (none, times') =>
      let st' : PrefixedLogger := { st with startTimes := times' }
      (st', warning st'
              ("log_end called for key " ++ sq ++ key ++ sq ++
                " without a corresponding log_start.") Args.empty ++
            info st' ("(BEACON - [" ++ key ++ "] - END (Elapsed time N/A s)) " ++ message) a)
  | (some startTime, times') =>
      let st' : PrefixedLogger := { st with startTimes := times' }
      let elapsed : ℚ := now - startTime
      (st', info st'
              ("(BEACON - [" ++ key ++ "] - END (Elapsed time " ++ format2f elapsed ++
                " s)) " ++ message) a)

end PrefixedLogger

/-- The handlers `setup_logging` can attach: the always-present stream
handler, the optional `CloudLoggingHandler` (carrying its name), and the
optional `RotatingFileHandler` (path, `maxBytes`, `backupCount`). -/
inductive Handler where
  | stream
  | cloud (name : String)
  | rotatingFile (path : String) (maxBytes : ℕ) (backupCount : ℕ)
deriving DecidableEq

/-- Facts about the process environment that `setup_logging` branches
on: whether the cloud logging library imported
(`_GOOGLE_CLOUD_LOGGING_AVAILABLE`), whether constructing the cloud
client/handler succeeds, and whether constructing the rotating file
handler succeeds. -/
structure LogEnv where
  gcloudAvailable : Bool
  cloudInitOk : Bool
  fileInitOk : Bool
deriving DecidableEq

/-- The arguments of `setup_logging`. `log_file_path` is an `Option`
because the code guards on `log_file_path is not None`. -/
structure SetupArgs where
  logger_name : String
  cloud_logger_name : Option String
  enable_gcloud_logging : Bool
  log_file_path : Option String
  log_file_max_bytes : ℕ
  log_file_backup_count : ℕ
deriving DecidableEq

/-- Python `cloud_logger_name or logger_name` (`None` and `""` falsy). -/
def orDefaultName : Option String → String → String
  | none, d => d
  | some s, d => if s = "" then d else s

/-- The process-wide logging state: the `_logging_configured` flag and
the handlers attached by `logging.basicConfig`. -/
structure GlobalState where
  loggingConfigured : Bool
  handlers : List Handler
deriving DecidableEq

/-- The handler list `setup_logging` builds on its configuring run:
stream handler always; cloud handler when requested, available, and
client construction succeeds; rotating file handler when a path is
given and construction succeeds. -/
def buildHandlers (env : LogEnv) (a : SetupArgs) : List Handler :=
  let hs : List Handler := [Handler.stream]
  let hs : List Handler :=
    if a.enable_gcloud_logging && env.gcloudAvailable && env.cloudInitOk then
      hs ++ [Handler.cloud (orDefaultName a.cloud_logger_name a.logger_name)]
    else hs
  match a.log_file_path with
  | none => hs
  | some p =>
      if env.fileInitOk then
        hs ++ [Handler.rotatingFile p a.log_file_max_bytes a.log_file_backup_count]
      else hs

/-- `setup_logging`: if `_logging_configured` is already set, return the
named logger without touching anything; otherwise attach the handlers,
set the flag, and return the named logger. The returned string is the
name of the logger handed back (`logging.getLogger(logger_name)`). -/
def setup_logging (env : LogEnv) (g : GlobalState) (a : SetupArgs) : GlobalState × String :=
  if g.loggingConfigured then (g, a.logger_name)
  else ({ loggingConfigured := true, handlers := buildHandlers env a }, a.logger_name)

/-- `get_prefixed_logger`: run `setup_logging` with the forwarded
configuration arguments, then build a fresh `PrefixedLogger` for the
name and prefix. -/
def get_prefixed_logger (env : LogEnv) (g : GlobalState) (logger_name : String)
    (p : Option String) (cloud_logger_name : Option String) (enable_gcloud_logging : Bool)
    (log_file_path : Option String) (log_file_max_bytes log_file_backup_count : ℕ) :
    GlobalState × PrefixedLogger :=
  let r := setup_logging env g
    { logger_name := logger_name, cloud_logger_name := cloud_logger_name,
      enable_gcloud_logging := enable_gcloud_logging, log_file_path := log_file_path,
      log_file_max_bytes := log_file_max_bytes, log_file_backup_count := log_file_backup_count }
  (r.fst, PrefixedLogger.init logger_name p)

/-!
Interleaving model for concurrent calls to `setup_logging`.

The source guards configuration with a bare module-level boolean and no
lock; in CPython only single bytecodes are atomic, so between one
thread's read of `_logging_configured` and its later
`_logging_configured = True` another thread can run the whole function.
Each thread executing `setup_logging` is modelled as passing through
three atomic program points, faithful to the statement order of the
source: read the flag (returning early if it is set), attach the
handlers (`logging.basicConfig`), set the flag. A schedule is the list
of thread indices in the order their next atomic step runs.
-/

/-- Shared state of the race model: the `_logging_configured` flag, how
many times handler attachment has executed, and each thread's program
counter (0 = about to read the flag, 1 = about to attach handlers,
2 = about to set the flag, 3 = returned). -/
structure RaceState where
  flag : Bool
  attachCount : ℕ
  threads : List ℕ
deriving DecidableEq

/-- Run one atomic step of thread `i` of `setup_logging`'s body. -/
def raceStep (s : RaceState) (i : ℕ) : RaceState :=
  match s.threads[i]? with
  | none => s
  | some pc =>
      if pc = 0 then
        if s.flag then { s with threads := s.threads.set i 3 }
        else { s with threads := s.threads.set i 1 }
      else if pc = 1 then
        { s with attachCount := s.attachCount + 1, threads := s.threads.set i 2 }
      else if pc = 2 then
        { s with flag := true, threads := s.threads.set i 3 }
      else s

/-- Run a schedule of atomic steps from a state. -/
def raceRun (s : RaceState) (sched : List ℕ) : RaceState :=
  sched.foldl raceStep s

/-- Initial race state: flag clear, nothing attached, `n` threads each
about to enter `setup_logging`. -/
def raceInit (n : ℕ) : RaceState :=
  { flag := false, attachCount := 0, threads := List.replicate n 0 }

open PrefixedLogger

/-- Storing a value under a key makes lookup of that key return it. -/
theorem dictLookup_insert_self (k : String) (v : ℚ) (d : List (String × ℚ)) :
    dictLookup k (dictInsert k v d) = some v := by
  simp [dictInsert, dictLookup]

/-- After removing a key, looking it up returns nothing. -/
theorem dictLookup_erase_self (k : String) (d : List (String × ℚ)) :
    dictLookup k (dictErase k d) = none := by
  induction d with
  | nil => rfl
  | cons hd tl ih =>
      obtain ⟨k', v⟩ := hd
      by_cases h : k' = k
      · simp [dictErase, h, ih]
      · simp [dictErase, dictLookup, h, ih]

/-- Removing one key leaves lookups of other keys unchanged. -/
theorem dictLookup_erase_ne (k k' : String) (d : List (String × ℚ)) (h : k' ≠ k) :
    dictLookup k' (dictErase k d) = dictLookup k' d := by
  induction d with
  | nil => rfl
  | cons hd tl ih =>
      obtain ⟨k0, v⟩ := hd
      by_cases h0 : k0 = k
      · subst h0
        have hne : k0 ≠ k' := fun hh => h hh.symm
        simp [dictErase, dictLookup, hne, ih]
      · simp [dictErase, dictLookup, h0, ih]

/-- Storing under one key leaves lookups of other keys unchanged. -/
theorem dictLookup_insert_ne (k k' : String) (v : ℚ) (d : List (String × ℚ)) (h : k' ≠ k) :
    dictLookup k' (dictInsert k v d) = dictLookup k' d := by
  have : k ≠ k' := fun hh => h hh.symm
  simp [dictInsert, dictLookup, this, dictLookup_erase_ne k k' d h]

/-- C1: for every severity level among debug, info, warning, error,
critical and exception, calling the corresponding method of a
`PrefixedLogger` with current prefix `st.pfx` and message `M` emits
exactly one record to the underlying logger through the same-severity
method, whose text is `[<prefix>] <message>` (so it contains it), with
the extra arguments passed through unchanged. -/
theorem c1_level_methods (L : Level) (st : PrefixedLogger) (M : String) (a : Args) :
    levelMethod L st M a = [{ level := L, msg := "[" ++ st.pfx ++ "] " ++ M, args := a }] := by
  cases L <;> rfl

/-- C2: when `key` has an entry `s` in the start-time mapping,
`log_end` removes that entry (afterwards the lookup misses) and emits
exactly one record at info severity whose body contains
`(BEACON - [<key>] - END (Elapsed time <elapsed:.2f> s)) <message>`
where elapsed is `now - s`, non-negative since the monotonic clock only
moves forward (`s ≤ now`). -/
theorem c2_log_end_found (st : PrefixedLogger) (now s : ℚ) (key message : String) (a : Args)
    (h : dictLookup key st.startTimes = some s) (hmono : s ≤ now) :
    log_end st now key message a =
      ({ st with startTimes := dictErase key st.startTimes },
       [{ level := Level.info,
          msg := "[" ++ st.pfx ++ "] " ++
            ("(BEACON - [" ++ key ++ "] - END (Elapsed time " ++ format2f (now - s) ++ " s)) " ++ message),
          args := a }]) ∧
    dictLookup key (log_end st now key message a).fst.startTimes = none ∧
    0 ≤ now - s := by
  have hp : dictPop key st.startTimes = (some s, dictErase key st.startTimes) := by
    simp [dictPop, h]
  have h1 : log_end st now key message a =
      ({ st with startTimes := dictErase key st.startTimes },
       [{ level := Level.info,
          msg := "[" ++ st.pfx ++ "] " ++
            ("(BEACON - [" ++ key ++ "] - END (Elapsed time " ++ format2f (now - s) ++ " s)) " ++ message),
          args := a }]) := by
    simp [log_end, hp, info, _format_message]
  refine ⟨h1, ?_, sub_nonneg.mpr hmono⟩
  rw [h1]
  exact dictLookup_erase_self key st.startTimes

/-- C3: when `key` has no entry in the start-time mapping, `log_end`
returns (it is a total function of the embedding, so it cannot raise),
leaves the wrapper state — in particular the mapping — unchanged, and
emits first a warning record containing
`log_end called for key '<key>' without a corresponding log_start.`
and then an info record containing
`(BEACON - [<key>] - END (Elapsed time N/A s)) <message>`. -/
theorem c3_log_end_missing (st : PrefixedLogger) (now : ℚ) (key message : String) (a : Args)
    (h : dictLookup key st.startTimes = none) :
    log_end st now key message a =
      (st,
       [{ level := Level.warning,
          msg := "[" ++ st.pfx ++ "] " ++
            ("log_end called for key " ++ sq ++ key ++ sq ++ " without a corresponding log_start."),
          args := Args.empty },
        { level := Level.info,
          msg := "[" ++ st.pfx ++ "] " ++
            ("(BEACON - [" ++ key ++ "] - END (Elapsed time N/A s)) " ++ message),
          args := a }]) := by
  have hp : dictPop key st.startTimes = (none, st.startTimes) := by
    simp [dictPop, h]
  simp [log_end, hp, info, warning, _format_message]


/-- Witness for C2 at a concrete wrapper, key and clock values. -/
theorem c2_log_end_found_witness :
    PrefixedLogger.log_end ⟨"app", "P", [("k", 1)]⟩ 3 "k" "done" Args.empty =
      (⟨"app", "P", []⟩,
       [{ level := Level.info,
          msg := "[P] (BEACON - [k] - END (Elapsed time 2.00 s)) done",
          args := Args.empty }]) ∧
    (0:ℚ) ≤ 3 - 1 := by
  have h := c2_log_end_found ⟨"app", "P", [("k", 1)]⟩ 3 1 "k" "done" Args.empty (by decide)
    (by norm_num)
  refine ⟨?_, h.2.2⟩
  rw [h.1]
  have harith : ((3:ℚ) - 1) = 2 := by norm_num
  rw [harith]
  decide

/-- Witness for C3 at a concrete wrapper with an empty mapping. -/
theorem c3_log_end_missing_witness :
    PrefixedLogger.log_end ⟨"app", "P", []⟩ 3 "k" "m" Args.empty =
      (⟨"app", "P", []⟩,
       [{ level := Level.warning,
          msg := "[P] log_end called for key " ++ sq ++ "k" ++ sq ++
            " without a corresponding log_start.",
          args := Args.empty },
        { level := Level.info,
          msg := "[P] (BEACON - [k] - END (Elapsed time N/A s)) m",
          args := Args.empty }]) := by
  have h := c3_log_end_missing ⟨"app", "P", []⟩ 3 "k" "m" Args.empty (by decide)
  rw [h]
  decide

/-- C6: `log_start` stores the current monotonic instant under `key`,
overwriting any previous entry for `key` (afterwards the lookup returns
the new instant) while leaving every other key untouched, and emits one
record at info severity whose body contains
`(BEACON - [<key>] - START) <message>`. -/
theorem c6_log_start_records_time (st : PrefixedLogger) (now : ℚ) (key message : String)
    (a : Args) :
    log_start st now key message a =
      ({ st with startTimes := dictInsert key now st.startTimes },
       [{ level := Level.info,
          msg := "[" ++ st.pfx ++ "] " ++ ("(BEACON - [" ++ key ++ "] - START) " ++ message),
          args := a }]) ∧
    dictLookup key (log_start st now key message a).fst.startTimes = some now ∧
    ∀ k' : String, k' ≠ key →
      dictLookup k' (log_start st now key message a).fst.startTimes =
        dictLookup k' st.startTimes := by
  refine ⟨rfl, ?_, ?_⟩
  · exact dictLookup_insert_self key now st.startTimes
  · intro k' hk
    exact dictLookup_insert_ne key k' now st.startTimes hk

/-- Witness for C6: overwriting an existing entry, other keys intact. -/
theorem c6_log_start_records_time_witness :
    dictLookup "k" (PrefixedLogger.log_start ⟨"app", "P", [("k", 7)]⟩ 5 "k" "go"
      Args.empty).fst.startTimes = some 5 ∧
    dictLookup "other" (PrefixedLogger.log_start ⟨"app", "P", [("k", 7)]⟩ 5 "k" "go"
      Args.empty).fst.startTimes = none := by
  have h := c6_log_start_records_time ⟨"app", "P", [("k", 7)]⟩ 5 "k" "go" Args.empty
  refine ⟨h.2.1, ?_⟩
  rw [h.2.2 "other" (by decide)]
  decide

/-- C7: `log_beacon` emits exactly one record at info severity with
body `(BEACON - [<key>] - BLIP) <message>`; it neither returns an
updated wrapper state (its type shows it modifies nothing, so the
mapping and the prefix are unchanged) nor depends on the start-time
mapping: the emission is invariant under replacing the mapping, and
depends only on the prefix. -/
theorem c7_log_beacon_blip (st : PrefixedLogger) (key message : String) (a : Args) :
    log_beacon st key message a =
      [{ level := Level.info,
         msg := "[" ++ st.pfx ++ "] " ++ ("(BEACON - [" ++ key ++ "] - BLIP) " ++ message),
         args := a }] ∧
    (∀ ts : List (String × ℚ),
      log_beacon { st with startTimes := ts } key message a = log_beacon st key message a) ∧
    (∀ lg pf : String,
      log_beacon { logger := lg, pfx := pf, startTimes := st.startTimes } key message a =
        [{ level := Level.info,
           msg := "[" ++ pf ++ "] " ++ ("(BEACON - [" ++ key ++ "] - BLIP) " ++ message),
           args := a }]) :=
  ⟨rfl, fun _ => rfl, fun _ _ => rfl⟩


/-- C5: `update_prefix` replaces the stored prefix with the new value,
or with the fixed default string `no-prefix` when the new value is
empty or absent, touching nothing else; with prefix `OLD`, the trace
`info "First"`, `update_prefix "NEW"`, `info "Second"` is exactly the
two records `[OLD] First` then `[NEW] Second`, in that order
(emissions before the update are values already produced, so the update
cannot affect them). -/
theorem c5_prefix_update (st : PrefixedLogger) (p : Option String) :
    ( update_prefix st p).pfx =
      (match p with
       | none => "no-prefix"
       | some s => if s = "" then "no-prefix" else s) ∧
    ( update_prefix st p).startTimes = st.startTimes ∧
    ( update_prefix st p).logger = st.logger ∧
    (st.pfx = "OLD" →
      info st "First" Args.empty ++
        info ( update_prefix st (some "NEW")) "Second" Args.empty =
      [{ level := Level.info, msg := "[OLD] First", args := Args.empty },
       { level := Level.info, msg := "[NEW] Second", args := Args.empty }]) := by
  refine ⟨by cases p <;> rfl, rfl, rfl, ?_⟩
  intro h
  simp [info, _format_message, update_prefix, orDefaultPfx, h]

/-- Witness for C5: the empty-string fallback and the OLD/NEW trace. -/
theorem c5_prefix_update_witness :
    ( update_prefix (⟨"app", "OLD", []⟩ : PrefixedLogger) (some "")).pfx = "no-prefix" ∧
    PrefixedLogger.info ⟨"app", "OLD", []⟩ "First" Args.empty ++
        PrefixedLogger.info ( update_prefix (⟨"app", "OLD", []⟩ : PrefixedLogger)
          (some "NEW")) "Second" Args.empty =
      [{ level := Level.info, msg := "[OLD] First", args := Args.empty },
       { level := Level.info, msg := "[NEW] Second", args := Args.empty }] := by
  refine ⟨?_, (c5_prefix_update ⟨"app", "OLD", []⟩ (some "NEW")).2.2.2 rfl⟩
  rw [(c5_prefix_update ⟨"app", "OLD", []⟩ (some "")).1]
  decide

/-- C4: after any call to `setup_logging` the configuration flag is
true and the call returns the logger of the requested name; a call made
while the flag is already set changes nothing at all (the global state,
including the attached handlers, is returned untouched, so first-call
arguments win); the first call (flag clear) attaches exactly the
handlers built from its own arguments and sets the flag. Since every
call leaves the flag true, it is never reset. -/
theorem c4_setup_logging_once (env : LogEnv) (g : GlobalState) (a : SetupArgs) :
    (setup_logging env g a).fst.loggingConfigured = true ∧
    (setup_logging env g a).snd = a.logger_name ∧
    (g.loggingConfigured = true → setup_logging env g a = (g, a.logger_name)) ∧
    (g.loggingConfigured = false →
      (setup_logging env g a).fst =
        { loggingConfigured := true, handlers := buildHandlers env a }) := by
  by_cases h : g.loggingConfigured
  · refine ⟨by simp [setup_logging, h], by simp [setup_logging, h], fun _ => by simp [setup_logging, h], fun hf => ?_⟩
    rw [h] at hf
    exact absurd hf (by decide)
  · simp only [Bool.not_eq_true] at h
    refine ⟨by simp [setup_logging, h], by simp [setup_logging, h], fun ht => ?_, fun _ => by simp [setup_logging, h]⟩
    rw [ht] at h
    exact absurd h (by decide)

/-- Witness for C4: a configured call is a no-op; a first call attaches the stream, cloud and rotating-file handlers. -/
theorem c4_setup_logging_once_witness :
    setup_logging ⟨true, true, true⟩ ⟨true, [Handler.stream]⟩
        ⟨"other", none, true, some "elsewhere.txt", 1024, 2⟩ =
      (⟨true, [Handler.stream]⟩, "other") ∧
    (setup_logging ⟨true, true, true⟩ ⟨false, []⟩
        ⟨"chronotag", none, true, some "logs.txt", 104857600, 5⟩).fst =
      ⟨true, [Handler.stream, Handler.cloud "chronotag",
              Handler.rotatingFile "logs.txt" 104857600 5]⟩ := by
  constructor
  · exact (c4_setup_logging_once ⟨true, true, true⟩ ⟨true, [Handler.stream]⟩
      ⟨"other", none, true, some "elsewhere.txt", 1024, 2⟩).2.2.1 rfl
  · rw [(c4_setup_logging_once ⟨true, true, true⟩ ⟨false, []⟩
      ⟨"chronotag", none, true, some "logs.txt", 104857600, 5⟩).2.2.2 rfl]
    decide

/-- C8: every wrapper returned by `get_prefixed_logger` starts with an
empty start-time mapping, regardless of the logger name, so two
wrappers constructed for the same name share no timing state:
`log_start` on wrapper A records its entry, while `log_end` on a second
freshly constructed wrapper B for the same name takes the missing-start
branch (warning record, then the END beacon with `N/A`) and leaves B's
mapping — and, the wrappers being separate values, A's entry — intact. -/
theorem c8_per_instance_state (env : LogEnv) (g g2 : GlobalState) (name : String)
    (p p2 : Option String) (cn : Option String) (eg : Bool) (fp : Option String)
    (mb bc : ℕ) (now now2 : ℚ) (key m1 m2 : String) (a1 a2 : Args) :
    (get_prefixed_logger env g name p cn eg fp mb bc).snd.startTimes = [] ∧
    dictLookup key
      ((get_prefixed_logger env g name p cn eg fp mb bc).snd.log_start
        now key m1 a1).fst.startTimes = some now ∧
    ((get_prefixed_logger env g2 name p2 cn eg fp mb bc).snd.log_end
        now2 key m2 a2).fst =
      (get_prefixed_logger env g2 name p2 cn eg fp mb bc).snd ∧
    ((get_prefixed_logger env g2 name p2 cn eg fp mb bc).snd.log_end
        now2 key m2 a2).snd =
      [{ level := Level.warning,
         msg := "[" ++ orDefaultPfx p2 ++ "] " ++
           ("log_end called for key " ++ sq ++ key ++ sq ++
             " without a corresponding log_start."),
         args := Args.empty },
       { level := Level.info,
         msg := "[" ++ orDefaultPfx p2 ++ "] " ++
           ("(BEACON - [" ++ key ++ "] - END (Elapsed time N/A s)) " ++ m2),
         args := a2 }] := by
  refine ⟨rfl, ?_, rfl, rfl⟩
  exact dictLookup_insert_self key now []

/-- C9: the beacon lines are routed through the leveled methods and so
carry the prefix: `log_beacon` and `log_start` emit exactly through
`info`, and both branches of `log_end` emit message bodies of the form
`[<prefix>] <bare body>`, including the missing-start warning body
`[<prefix>] log_end called for key '<key>' without a corresponding
log_start.` — never the bare bodies alone. -/
theorem c9_emissions_prefixed (st : PrefixedLogger) (now : ℚ) (key m : String) (a : Args) :
    log_beacon st key m a = info st ("(BEACON - [" ++ key ++ "] - BLIP) " ++ m) a ∧
    (log_start st now key m a).snd =
      info { st with startTimes := dictInsert key now st.startTimes }
        ("(BEACON - [" ++ key ++ "] - START) " ++ m) a ∧
    (dictLookup key st.startTimes = none →
      (log_end st now key m a).snd.map Record.msg =
        ["[" ++ st.pfx ++ "] " ++
           ("log_end called for key " ++ sq ++ key ++ sq ++
             " without a corresponding log_start."),
         "[" ++ st.pfx ++ "] " ++
           ("(BEACON - [" ++ key ++ "] - END (Elapsed time N/A s)) " ++ m)]) ∧
    (∀ s : ℚ, dictLookup key st.startTimes = some s →
      (log_end st now key m a).snd.map Record.msg =
        ["[" ++ st.pfx ++ "] " ++
           ("(BEACON - [" ++ key ++ "] - END (Elapsed time " ++ format2f (now - s) ++
             " s)) " ++ m)]) := by
  refine ⟨rfl, rfl, ?_, ?_⟩
  · intro h
    have hp : dictPop key st.startTimes = (none, st.startTimes) := by simp [dictPop, h]
    simp [log_end, hp, info, warning, _format_message]
  · intro s h
    have hp : dictPop key st.startTimes = (some s, dictErase key st.startTimes) := by
      simp [dictPop, h]
    simp [log_end, hp, info, _format_message]

/-- Witness for C9 on the missing-start branch at concrete inputs. -/
theorem c9_emissions_prefixed_witness :
    (PrefixedLogger.log_end ⟨"app", "P", []⟩ 3 "k" "m" Args.empty).snd.map Record.msg =
      ["[P] log_end called for key " ++ sq ++ "k" ++ sq ++
         " without a corresponding log_start.",
       "[P] (BEACON - [k] - END (Elapsed time N/A s)) m"] := by
  rw [(c9_emissions_prefixed ⟨"app", "P", []⟩ 3 "k" "m" Args.empty).2.2.1 rfl]
  decide

/-- C10 (refuting the claim as stated): the source guards
`setup_logging` with a bare boolean and no lock, so the check-and-set
is not under mutual exclusion. In the interleaving model of the
function's atomic steps, the schedule where two threads both read the
clear flag before either attaches (`[0, 1, 0, 1]`) makes handler
attachment run twice, so it is false that every interleaving of
concurrent calls attaches the handler set at most once. -/
theorem c10_racing_setup_attaches_twice :
    (raceRun (raceInit 2) [0, 1, 0, 1]).attachCount = 2 ∧
    ¬ ∀ sched : List ℕ, (raceRun (raceInit 2) sched).attachCount ≤ 1 :=
  ⟨by decide, fun hall => absurd (hall [0, 1, 0, 1]) (by decide)⟩

end Chronotag
